import Mathlib

/-!
Verification of the Elasticsearch sink of the OpenMetadata ingestion
framework (`ingestion/src/metadata/ingestion/sink/elasticsearch.py`).

The development shallowly embeds the sink's document builders, the index
bootstrap, and the record dispatch. Python strings become `String`,
optional fields become `Option`, and a builder that would raise a Python
exception (for instance by iterating over a `None` tag list) returns
`none`. The Python `set` used to accumulate tags is modelled as a
duplicate-free `List String` in insertion order; all properties read the
resulting `tags` field only up to membership, since Python set iteration
order is unspecified. Calls to the Elasticsearch client are reified as an
`ESCall` list; lookups against the metadata store are passed in as
already-resolved values.
-/

set_option autoImplicit false

namespace OMES

/-- Substring test on character lists: `hasSubstr pat s` is `true` iff `pat`
occurs contiguously in `s`.  Models Python's `pat in s` on strings. -/
def hasSubstr (pat : List Char) : List Char → Bool
  | [] => pat.isEmpty
  | c :: rest => pat.isPrefixOf (c :: rest) || hasSubstr pat rest

/-- Python `"Tier" in fqn` (substring containment). -/
def containsTier (fqn : String) : Bool :=
  hasSubstr "Tier".data fqn.data

/-- `tags.add fqn` on the Python set, modelled on a duplicate-free list in
insertion order. -/
def addTag (tags : List String) (fqn : String) : List String :=
  if fqn ∈ tags then tags else tags ++ [fqn]

/-- A tag label; only its fully-qualified name flows into the sink. -/
structure TagLabel where
  tagFQN : String
  deriving DecidableEq, Repr

/-- One iteration of the tier/tags loop shared by all four builders:
`if "Tier" in tag.tagFQN: tier = tag.tagFQN else: tags.add(tag.tagFQN)`. -/
def tierTagStep (acc : Option String × List String) (t : TagLabel) :
    Option String × List String :=
  if containsTier t.tagFQN then (some t.tagFQN, acc.2) else (acc.1, addTag acc.2 t.tagFQN)

/-- The whole tier/tags loop, starting from `tier = None` and an empty set. -/
def tierTagLoop (ts : List TagLabel) : Option String × List String :=
  ts.foldl tierTagStep (none, [])

/-- A column of a table: name, optional description, tag list, optional
nested children (`Column.children` is `None` or a list in the source). -/
inductive Column : Type where
  | mk : String → Option String → List TagLabel → Option (List Column) → Column
  deriving Repr

def Column.name : Column → String
  | .mk n _ _ _ => n

def Column.description : Column → Option String
  | .mk _ d _ _ => d

def Column.tags : Column → List TagLabel
  | .mk _ _ t _ => t

def Column.children : Column → Option (List Column)
  | .mk _ _ _ c => c

/-- Add all of a tag-label list's FQNs to the accumulated tag set
(the body of `for col_tag in …: tags.add(col_tag.tagFQN)`). -/
def addAllTags (tags : List String) (ts : List TagLabel) : List String :=
  ts.foldl (fun acc t => addTag acc t.tagFQN) tags

/-- `_parse_columns`: walks the column list, appending each column's dotted
name and description and adding its tags; when a column has children it
recurses passing `column.name.__root__` — the bare column name, not the
accumulated `col_name` — as the new parent prefix.  The three mutated
Python lists/set are threaded as the accumulator triple
(names, descriptions, tags). -/
def _parse_columns :
    List Column → Option String → List String → List String → List String →
    List String × List String × List String
  | [], _, names, descs, tags => (names, descs, tags)
  | Column.mk nm desc ctags children :: rest, parent, names, descs, tags =>
    let colName := match parent with
      | some p => p ++ "." ++ nm
      | none => nm
    let names' := names ++ [colName]
    let descs' := match desc with
      | some d => descs ++ [d]
      | none => descs
    let tags' := if ctags.length > 0 then addAllTags tags ctags else tags
    let inner := match children with
      | some cs => _parse_columns cs (some nm) names' descs' tags'
      | none => (names', descs', tags')
    _parse_columns rest parent inner.1 inner.2.1 inner.2.2

/-- A reference to another entity (only the pieces the sink reads:
`ref.id.__root__` stringified, and `ref.name`). -/
structure EntityRef where
  id : String
  name : String
  deriving DecidableEq, Repr

/-- One usage-statistics bucket (`count` and `percentileRank` are numeric
values the sink copies through verbatim; their arithmetic is never used,
so they are modelled as integers). -/
structure UsageStats where
  count : Int
  percentileRank : Int
  deriving DecidableEq, Repr

/-- `usageSummary` with its daily/weekly/monthly buckets. -/
structure UsageSummary where
  dailyStats : UsageStats
  weeklyStats : UsageStats
  monthlyStats : UsageStats
  deriving DecidableEq, Repr

/-- One weighted entry of the autocomplete `suggest` field. -/
structure Suggest where
  input : List String
  weight : Nat
  deriving DecidableEq, Repr

/-- A `Table` entity as the sink reads it.  `tags`, `owner`, `followers`
and `tableType` are optional in the generated schema model (default
`None`); `tableType` is flattened to its enum name when present. -/
structure Table where
  id : String
  name : String
  fullyQualifiedName : String
  description : Option String
  database : EntityRef
  columns : List Column
  tags : Option (List TagLabel)
  usageSummary : UsageSummary
  owner : Option EntityRef
  followers : Option (List EntityRef)
  tableType : Option String
  deriving Repr

/-- A `Topic` entity as the sink reads it. -/
structure Topic where
  id : String
  name : String
  fullyQualifiedName : String
  description : Option String
  service : EntityRef
  tags : Option (List TagLabel)
  owner : Option EntityRef
  followers : Option (List EntityRef)
  deriving Repr

/-- A `Chart`, as returned by the metadata store when the dashboard builder
resolves a chart reference (`_get_charts`). -/
structure Chart where
  displayName : String
  description : Option String
  tags : List TagLabel
  deriving Repr

/-- A `Dashboard` entity as the sink reads it. -/
structure Dashboard where
  id : String
  name : String
  displayName : String
  fullyQualifiedName : String
  description : Option String
  service : EntityRef
  charts : List EntityRef
  tags : Option (List TagLabel)
  usageSummary : UsageSummary
  owner : Option EntityRef
  followers : Option (List EntityRef)
  deriving Repr

/-- A pipeline `Task` (display name, optional description, tag list). -/
structure Task where
  displayName : String
  description : Option String
  tags : List TagLabel
  deriving Repr

/-- A `Pipeline` entity as the sink reads it. -/
structure Pipeline where
  id : String
  name : String
  displayName : String
  fullyQualifiedName : String
  description : Option String
  service : EntityRef
  tasks : List Task
  tags : Option (List TagLabel)
  owner : Option EntityRef
  followers : Option (List EntityRef)
  deriving Repr

/-- Result of the table builder's two metadata-store lookups: the owning
`Database` entity's name and, transitively, that database's
`DatabaseService` name and service type. -/
structure ResolvedDbService where
  database_name : String
  service_name : String
  service_type : String
  deriving DecidableEq, Repr

/-- Result of a `get_by_id` lookup of an owning service (name and
serviceType's enum name). -/
structure ResolvedService where
  service_name : String
  service_type : String
  deriving DecidableEq, Repr

/-- `str(entity.owner.id.__root__) if entity.owner is not None else ""`. -/
def ownerString : Option EntityRef → String
  | some o => o.id
  | none => ""

/-- The follower-collection loop: empty when `followers` is falsy, else the
stringified follower ids in order. -/
def followerList : Option (List EntityRef) → List String
  | some fs => fs.map EntityRef.id
  | none => []

/-- `TableESDocument` (fields in source order). -/
structure TableESDocument where
  table_id : String
  database : String
  service : String
  service_type : String
  service_category : String
  table_name : String
  suggest : List Suggest
  description : Option String
  table_type : Option String
  last_updated_timestamp : Int
  column_names : List String
  column_descriptions : List String
  monthly_stats : Int
  monthly_percentile_rank : Int
  weekly_stats : Int
  weekly_percentile_rank : Int
  daily_stats : Int
  daily_percentile_rank : Int
  tier : Option String
  tags : List String
  fqdn : String
  schema_description : Option String
  owner : String
  followers : List String
  deriving Repr

/-- `TopicESDocument` (fields in source order). -/
structure TopicESDocument where
  topic_id : String
  service : String
  service_type : String
  service_category : String
  topic_name : String
  suggest : List Suggest
  description : Option String
  last_updated_timestamp : Int
  tier : Option String
  tags : List String
  fqdn : String
  owner : String
  followers : List String
  deriving Repr

/-- `DashboardESDocument` (fields in source order). -/
structure DashboardESDocument where
  dashboard_id : String
  service : String
  service_type : String
  service_category : String
  dashboard_name : String
  chart_names : List String
  chart_descriptions : List String
  suggest : List Suggest
  description : Option String
  last_updated_timestamp : Int
  tier : Option String
  tags : List String
  fqdn : String
  owner : String
  followers : List String
  monthly_stats : Int
  monthly_percentile_rank : Int
  weekly_stats : Int
  weekly_percentile_rank : Int
  daily_stats : Int
  daily_percentile_rank : Int
  deriving Repr

/-- `PipelineESDocument` (fields in source order). -/
structure PipelineESDocument where
  pipeline_id : String
  service : String
  service_type : String
  service_category : String
  pipeline_name : String
  task_names : List String
  task_descriptions : List String
  suggest : List Suggest
  description : Option String
  last_updated_timestamp : Int
  tier : Option String
  tags : List String
  fqdn : String
  owner : String
  followers : List String
  deriving Repr

/-- `_create_table_es_doc`.  `res` packages the results of the builder's two
metadata-store lookups (owning database, then that database's service);
`timestamp` is the `time.time()` wall-clock stamp taken during the build.
Returns `none` when the source would raise: `for table_tag in table.tags`
over a `None` tag list is a `TypeError`. -/
def _create_table_es_doc (res : ResolvedDbService) (timestamp : Int)
    (table : Table) : Option TableESDocument :=
  match table.tags with
  | none => none
  | some tlist =>
    let fqdn := table.fullyQualifiedName
    let suggest : List Suggest := [⟨[fqdn], 5⟩, ⟨[table.name], 10⟩]
    let acc := tierTagLoop tlist
    let parsed := _parse_columns table.columns none [] [] acc.2
    some {
      table_id := table.id
      database := res.database_name
      service := res.service_name
      service_type := res.service_type
      service_category := "databaseService"
      table_name := table.name
      suggest := suggest
      description := table.description
      table_type := table.tableType
      last_updated_timestamp := timestamp
      column_names := parsed.1
      column_descriptions := parsed.2.1
      monthly_stats := table.usageSummary.monthlyStats.count
      monthly_percentile_rank := table.usageSummary.monthlyStats.percentileRank
      weekly_stats := table.usageSummary.weeklyStats.count
      weekly_percentile_rank := table.usageSummary.weeklyStats.percentileRank
      daily_stats := table.usageSummary.dailyStats.count
      daily_percentile_rank := table.usageSummary.dailyStats.percentileRank
      tier := acc.1
      tags := parsed.2.2
      fqdn := fqdn
      schema_description := none
      owner := ownerString table.owner
      followers := followerList table.followers }

/-- `_create_topic_es_doc`. `res` is the owning messaging service looked up
by id.  `none` models the `TypeError` raised when `topic.tags` is `None`. -/
def _create_topic_es_doc (res : ResolvedService) (timestamp : Int)
    (topic : Topic) : Option TopicESDocument :=
  match topic.tags with
  | none => none
  | some tlist =>
    let fqdn := topic.fullyQualifiedName
    let suggest : List Suggest := [⟨[fqdn], 5⟩, ⟨[topic.name], 10⟩]
    let acc := tierTagLoop tlist
    some {
      topic_id := topic.id
      service := res.service_name
      service_type := res.service_type
      service_category := "messagingService"
      topic_name := topic.name
      suggest := suggest
      description := topic.description
      last_updated_timestamp := timestamp
      tier := acc.1
      tags := acc.2
      fqdn := fqdn
      owner := ownerString topic.owner
      followers := followerList topic.followers }

/-- One iteration of the chart loop of `_create_dashboard_es_doc`: collect
the display name, a non-`None` description, and add every chart tag to the
tag set. -/
def chartStep (acc : List String × List String × List String) (c : Chart) :
    List String × List String × List String :=
  let names := acc.1 ++ [c.displayName]
  let descs := match c.description with
    | some d => acc.2.1 ++ [d]
    | none => acc.2.1
  let tags' := if c.tags.length > 0 then addAllTags acc.2.2 c.tags else acc.2.2
  (names, descs, tags')

/-- The whole chart loop, starting from empty name/description lists and
the tag set accumulated so far. -/
def chartFold (charts : List Chart) (tags : List String) :
    List String × List String × List String :=
  charts.foldl chartStep ([], [], tags)

/-- `_create_dashboard_es_doc`. `res` is the owning dashboard service;
`charts` is the result of `_get_charts` (each chart reference resolved by
id against the metadata store).  `none` models the `TypeError` raised when
`dashboard.tags` is `None`. -/
def _create_dashboard_es_doc (res : ResolvedService) (charts : List Chart)
    (timestamp : Int) (dashboard : Dashboard) : Option DashboardESDocument :=
  match dashboard.tags with
  | none => none
  | some tlist =>
    let fqdn := dashboard.fullyQualifiedName
    let suggest : List Suggest := [⟨[dashboard.displayName], 10⟩]
    let acc := tierTagLoop tlist
    let folded := chartFold charts acc.2
    some {
      dashboard_id := dashboard.id
      service := res.service_name
      service_type := res.service_type
      service_category := "dashboardService"
      dashboard_name := dashboard.displayName
      chart_names := folded.1
      chart_descriptions := folded.2.1
      suggest := suggest
      description := dashboard.description
      last_updated_timestamp := timestamp
      tier := acc.1
      tags := folded.2.2
      fqdn := fqdn
      owner := ownerString dashboard.owner
      followers := followerList dashboard.followers
      monthly_stats := dashboard.usageSummary.monthlyStats.count
      monthly_percentile_rank := dashboard.usageSummary.monthlyStats.percentileRank
      weekly_stats := dashboard.usageSummary.weeklyStats.count
      weekly_percentile_rank := dashboard.usageSummary.weeklyStats.percentileRank
      daily_stats := dashboard.usageSummary.dailyStats.count
      daily_percentile_rank := dashboard.usageSummary.dailyStats.percentileRank }

/-- The guard `tags in task` of the pipeline task loop.  In the source,
`task` is a pydantic model, so `in` iterates its `(field name, value)`
pairs and compares each against `tags`; `tags` is a `set` of strings and a
set never equals such a pair, so the test is identically false (task tags
are consequently never merged). -/
def tags_in_task (_tags : List String) (_task : Task) : Bool :=
  false

/-- One iteration of the task loop of `_create_pipeline_es_doc`: collect
the display name and a non-`None` description; the tag-merge branch is
guarded by `tags in task and len(task.tags) > 0`. -/
def taskStep (acc : List String × List String × List String) (task : Task) :
    List String × List String × List String :=
  let names := acc.1 ++ [task.displayName]
  let descs := match task.description with
    | some d => acc.2.1 ++ [d]
    | none => acc.2.1
  let tags' := if tags_in_task acc.2.2 task && task.tags.length > 0 then
      addAllTags acc.2.2 task.tags
    else acc.2.2
  (names, descs, tags')

/-- The whole task loop, starting from empty name/description lists and
the tag set accumulated so far. -/
def taskFold (tasks : List Task) (tags : List String) :
    List String × List String × List String :=
  tasks.foldl taskStep ([], [], tags)

/-- `_create_pipeline_es_doc`. `res` is the owning pipeline service.
`none` models the `TypeError` raised when `pipeline.tags` is `None`. -/
def _create_pipeline_es_doc (res : ResolvedService) (timestamp : Int)
    (pipeline : Pipeline) : Option PipelineESDocument :=
  match pipeline.tags with
  | none => none
  | some tlist =>
    let fqdn := pipeline.fullyQualifiedName
    let suggest : List Suggest := [⟨[pipeline.displayName], 10⟩]
    let acc := tierTagLoop tlist
    let folded := taskFold pipeline.tasks acc.2
    some {
      pipeline_id := pipeline.id
      service := res.service_name
      service_type := res.service_type
      service_category := "pipelineService"
      pipeline_name := pipeline.displayName
      task_names := folded.1
      task_descriptions := folded.2.1
      suggest := suggest
      description := pipeline.description
      last_updated_timestamp := timestamp
      tier := acc.1
      tags := folded.2.2
      fqdn := fqdn
      owner := ownerString pipeline.owner
      followers := followerList pipeline.followers }

/-- `ElasticSearchConfig` — the fields the bootstrap and dispatch read
(connection options are consumed by the client library and not modelled). -/
structure ElasticSearchConfig where
  index_tables : Bool := true
  index_topics : Bool := true
  index_dashboards : Bool := true
  index_pipelines : Bool := true
  table_index_name : String := "table_search_index"
  topic_index_name : String := "topic_search_index"
  dashboard_index_name : String := "dashboard_search_index"
  pipeline_index_name : String := "pipeline_search_index"
  deriving DecidableEq, Repr

/-- A mapping template as handed to `_check_or_create_index`: in the source
a JSON string whose parse has a `settings` object and a
`mappings.properties` object; both payloads are opaque to the sink, so they
are carried as uninterpreted strings. -/
structure ESMapping where
  settings : String
  properties : String
  deriving DecidableEq, Repr

/-- The body of a `put_mapping` call: `{"properties": …}` only. -/
structure PutMappingBody where
  properties : String
  deriving DecidableEq, Repr

/-- A reified call to the Elasticsearch client. -/
inductive ESCall : Type where
  | createIndex (index : String) (body : ESMapping)
  | putMapping (index : String) (body : PutMappingBody)
  | indexDoc (index : String) (id : String)
  deriving DecidableEq, Repr

/-- What the cluster reports about one index: whether
`indices.exists(index_name)` holds and, if so, whether
`mapping[index_name]["mappings"]` is empty (falsy). -/
structure IndexState where
  indexExists : Bool
  mappingsEmpty : Bool
  deriving DecidableEq, Repr

/-- `_check_or_create_index`, reified as the list of client calls it
issues against the given index state. -/
def _check_or_create_index (st : IndexState) (index_name : String)
    (es_mapping : ESMapping) : List ESCall :=
  if st.indexExists then
    if st.mappingsEmpty then
      [ESCall.putMapping index_name ⟨es_mapping.properties⟩]
    else []
  else
    [ESCall.createIndex index_name es_mapping]

/-- The four per-kind mapping templates handed to the constructor
(TABLE/TOPIC/DASHBOARD/PIPELINE `_ELASTICSEARCH_INDEX_MAPPING`). -/
structure MappingTemplates where
  tableMapping : ESMapping
  topicMapping : ESMapping
  dashboardMapping : ESMapping
  pipelineMapping : ESMapping
  deriving DecidableEq, Repr

/-- Cluster state for the four configured indices at construction time. -/
structure ClusterState where
  tableIndex : IndexState
  topicIndex : IndexState
  dashboardIndex : IndexState
  pipelineIndex : IndexState
  deriving DecidableEq, Repr

/-- The index-bootstrap part of `ElasticsearchSink.__init__`: for each
entity kind whose enable flag is set, run `_check_or_create_index` on that
kind's configured index; reified as the concatenated call list. -/
def sinkInit (cfg : ElasticSearchConfig) (cluster : ClusterState)
    (maps : MappingTemplates) : List ESCall :=
  (if cfg.index_tables then
      _check_or_create_index cluster.tableIndex cfg.table_index_name maps.tableMapping
    else []) ++
  (if cfg.index_topics then
      _check_or_create_index cluster.topicIndex cfg.topic_index_name maps.topicMapping
    else []) ++
  (if cfg.index_dashboards then
      _check_or_create_index cluster.dashboardIndex cfg.dashboard_index_name maps.dashboardMapping
    else []) ++
  (if cfg.index_pipelines then
      _check_or_create_index cluster.pipelineIndex cfg.pipeline_index_name maps.pipelineMapping
    else [])

/-- A record arriving at `write_record`; the four entity kinds are disjoint
runtime types, so the `isinstance` chain is a sum-type dispatch. -/
inductive Record : Type where
  | table (t : Table)
  | topic (t : Topic)
  | dashboard (d : Dashboard)
  | pipeline (p : Pipeline)
  deriving Repr

/-- All metadata-store resolutions a `write_record` call may need, plus the
wall-clock stamp taken during the build. -/
structure MetadataResolution where
  dbService : ResolvedDbService
  msgService : ResolvedService
  dashService : ResolvedService
  pipeService : ResolvedService
  charts : List Chart
  timestamp : Int
  deriving Repr

/-- `write_record`, reified as the Elasticsearch calls it issues: build the
document for the record's kind and index it under the configured index name
keyed by the document's entity id.  `none` models a builder exception
propagating out of the call.  (The status-tracker update that follows the
index call touches no Elasticsearch state and is not modelled.) -/
def write_record (cfg : ElasticSearchConfig) (res : MetadataResolution)
    (r : Record) : Option (List ESCall) :=
  match r with
  | .table t =>
    (_create_table_es_doc res.dbService res.timestamp t).map
      (fun d => [ESCall.indexDoc cfg.table_index_name d.table_id])
  | .topic t =>
    (_create_topic_es_doc res.msgService res.timestamp t).map
      (fun d => [ESCall.indexDoc cfg.topic_index_name d.topic_id])
  | .dashboard d =>
    (_create_dashboard_es_doc res.dashService res.charts res.timestamp d).map
      (fun doc => [ESCall.indexDoc cfg.dashboard_index_name doc.dashboard_id])
  | .pipeline p =>
    (_create_pipeline_es_doc res.pipeService res.timestamp p).map
      (fun doc => [ESCall.indexDoc cfg.pipeline_index_name doc.pipeline_id])

/-- The index name a reified client call targets. -/
def ESCall.indexName : ESCall → String
  | .createIndex i _ => i
  | .putMapping i _ => i
  | .indexDoc i _ => i

/-- Spec-side (claim wording): the FIRST tag in iteration order whose
fully-qualified name contains `"Tier"`. -/
def firstTierTag (ts : List TagLabel) : Option String :=
  (ts.find? (fun t => containsTier t.tagFQN)).map TagLabel.tagFQN

/-- Spec-side: the LAST tag in iteration order whose fully-qualified name
contains `"Tier"` (what the overwriting loop actually keeps). -/
def lastTierTag (ts : List TagLabel) : Option String :=
  (ts.reverse.find? (fun t => containsTier t.tagFQN)).map TagLabel.tagFQN

/-- All tag FQNs carried anywhere in a column forest, in traversal order. -/
def columnTagFQNs : List Column → List String
  | [] => []
  | Column.mk _ _ ctags children :: rest =>
      ctags.map TagLabel.tagFQN ++
        (match children with
          | some cs => columnTagFQNs cs
          | none => []) ++
        columnTagFQNs rest

/-- All tag FQNs carried by a chart list. -/
def chartTagFQNs (charts : List Chart) : List String :=
  (charts.map (fun c => c.tags.map TagLabel.tagFQN)).flatten

section Lemmas

lemma mem_addTag {l : List String} {f x : String} :
    x ∈ addTag l f ↔ x ∈ l ∨ x = f := by
  by_cases h : f ∈ l
  · simp only [addTag, if_pos h]
    exact ⟨Or.inl, fun hx => hx.elim id (fun e => e ▸ h)⟩
  · simp [addTag, if_neg h]

lemma addAllTags_cons (l : List String) (t : TagLabel) (ts : List TagLabel) :
    addAllTags l (t :: ts) = addAllTags (addTag l t.tagFQN) ts := rfl

lemma mem_addAllTags {ts : List TagLabel} {l : List String} {x : String} :
    x ∈ addAllTags l ts ↔ x ∈ l ∨ ∃ t ∈ ts, t.tagFQN = x := by
  induction ts generalizing l with
  | nil => simp [addAllTags]
  | cons t rest ih =>
    rw [addAllTags_cons, ih]
    constructor
    · rintro (hx | ⟨u, hu, rfl⟩)
      · rcases mem_addTag.mp hx with hx | rfl
        · exact Or.inl hx
        · exact Or.inr ⟨t, List.mem_cons_self t rest, rfl⟩
      · exact Or.inr ⟨u, List.mem_cons_of_mem _ hu, rfl⟩
    · rintro (hx | ⟨u, hu, rfl⟩)
      · exact Or.inl (mem_addTag.mpr (Or.inl hx))
      · rcases List.mem_cons.mp hu with rfl | hu
        · exact Or.inl (mem_addTag.mpr (Or.inr rfl))
        · exact Or.inr ⟨u, hu, rfl⟩

lemma tierTagStep_pos {acc : Option String × List String} {t : TagLabel}
    (h : containsTier t.tagFQN = true) :
    tierTagStep acc t = (some t.tagFQN, acc.2) := by
  simp [tierTagStep, h]

lemma tierTagStep_neg {acc : Option String × List String} {t : TagLabel}
    (h : containsTier t.tagFQN = false) :
    tierTagStep acc t = (acc.1, addTag acc.2 t.tagFQN) := by
  simp [tierTagStep, h]

lemma tierFold_fst (ts : List TagLabel) (t0 : Option String) (a0 : List String) :
    (ts.foldl tierTagStep (t0, a0)).1 =
      (ts.reverse.find? (fun t => containsTier t.tagFQN)).elim t0 (fun t => some t.tagFQN) := by
  induction ts generalizing t0 a0 with
  | nil => simp
  | cons t rest ih =>
    rw [List.foldl_cons, List.reverse_cons, List.find?_append]
    by_cases h : containsTier t.tagFQN
    · rw [tierTagStep_pos h, ih]
      cases hf : rest.reverse.find? (fun t => containsTier t.tagFQN) <;>
        simp [hf, h, Option.or]
    · rw [tierTagStep_neg (Bool.of_not_eq_true h ▸ rfl)]
      · rw [ih]
        cases hf : rest.reverse.find? (fun t => containsTier t.tagFQN) <;>
          simp [hf, h, Option.or]

lemma tierFold_snd {x : String} (ts : List TagLabel) (t0 : Option String) (a0 : List String)
    (h : x ∈ (ts.foldl tierTagStep (t0, a0)).2) :
    x ∈ a0 ∨ ∃ t ∈ ts, t.tagFQN = x ∧ containsTier t.tagFQN = false := by
  induction ts generalizing t0 a0 with
  | nil => exact Or.inl h
  | cons t rest ih =>
    rw [List.foldl_cons] at h
    by_cases hc : containsTier t.tagFQN
    · rw [tierTagStep_pos hc] at h
      rcases ih _ _ h with hx | ⟨u, hu, hux, hcu⟩
      · exact Or.inl hx
      · exact Or.inr ⟨u, List.mem_cons_of_mem _ hu, hux, hcu⟩
    · have hc' : containsTier t.tagFQN = false := by
        simpa using hc
      rw [tierTagStep_neg hc'] at h
      rcases ih _ _ h with hx | ⟨u, hu, hux, hcu⟩
      · rcases mem_addTag.mp hx with hx | rfl
        · exact Or.inl hx
        · exact Or.inr ⟨t, List.mem_cons_self t rest, rfl, hc'⟩
      · exact Or.inr ⟨u, List.mem_cons_of_mem _ hu, hux, hcu⟩

lemma tierTagLoop_fst (ts : List TagLabel) : (tierTagLoop ts).1 = lastTierTag ts := by
  unfold tierTagLoop lastTierTag
  rw [tierFold_fst]
  cases hf : ts.reverse.find? (fun t => containsTier t.tagFQN) <;> simp

lemma mem_tierTagLoop_not_tier {ts : List TagLabel} {x : String}
    (h : x ∈ (tierTagLoop ts).2) : containsTier x = false := by
  rcases tierFold_snd ts none [] h with hx | ⟨t, _, rfl, hc⟩
  · cases hx
  · exact hc

lemma lastTierTag_isTier {ts : List TagLabel} {x : String}
    (h : lastTierTag ts = some x) : containsTier x = true := by
  unfold lastTierTag at h
  cases hf : ts.reverse.find? (fun t => containsTier t.tagFQN) with
  | none => rw [hf] at h; cases h
  | some t =>
    rw [hf] at h
    cases h
    have hp := List.find?_some hf
    simpa using hp

lemma lastTierTag_of_filter_singleton {ts : List TagLabel} {tg : TagLabel}
    (h : ts.filter (fun t => containsTier t.tagFQN) = [tg]) :
    lastTierTag ts = some tg.tagFQN := by
  unfold lastTierTag
  rw [← List.filter_head?, List.filter_reverse, h]
  rfl

lemma if_addAllTags (ts : List String) (ctags : List TagLabel) :
    (if ctags.length > 0 then addAllTags ts ctags else ts) = addAllTags ts ctags := by
  cases ctags <;> simp [addAllTags]

lemma parse_columns_tags_subset :
    ∀ (cs : List Column) (p : Option String) (ns ds ts : List String) (x : String),
      x ∈ (_parse_columns cs p ns ds ts).2.2 → x ∈ ts ∨ x ∈ columnTagFQNs cs
  | [], _, _, _, _, _, h => by
    rw [_parse_columns.eq_def] at h
    simp only [] at h
    exact Or.inl h
  | Column.mk nm desc ctags children :: rest, parent, ns, ds, ts, x, h => by
    cases children with
    | none =>
      rw [_parse_columns.eq_def] at h
      simp only [] at h
      rcases parse_columns_tags_subset rest parent _ _ _ x h with h1 | h1
      · rw [if_addAllTags] at h1
        rcases mem_addAllTags.mp h1 with h2 | ⟨t, ht, rfl⟩
        · exact Or.inl h2
        · refine Or.inr ?_
          simp only [columnTagFQNs, List.mem_append, List.mem_map]
          exact Or.inl (Or.inl ⟨t, ht, rfl⟩)
      · refine Or.inr ?_
        simp only [columnTagFQNs, List.mem_append]
        exact Or.inr h1
    | some cs =>
      rw [_parse_columns.eq_def] at h
      simp only [] at h
      rcases parse_columns_tags_subset rest parent _ _ _ x h with h1 | h1
      · rcases parse_columns_tags_subset cs (some nm) _ _ _ x h1 with h2 | h2
        · rw [if_addAllTags] at h2
          rcases mem_addAllTags.mp h2 with h3 | ⟨t, ht, rfl⟩
          · exact Or.inl h3
          · refine Or.inr ?_
            simp only [columnTagFQNs, List.mem_append, List.mem_map]
            exact Or.inl (Or.inl ⟨t, ht, rfl⟩)
        · refine Or.inr ?_
          simp only [columnTagFQNs, List.mem_append]
          exact Or.inl (Or.inr h2)
      · refine Or.inr ?_
        simp only [columnTagFQNs, List.mem_append]
        exact Or.inr h1

lemma mem_chartTagFQNs {charts : List Chart} {x : String} :
    x ∈ chartTagFQNs charts ↔ ∃ c ∈ charts, ∃ t ∈ c.tags, t.tagFQN = x := by
  simp only [chartTagFQNs, List.mem_flatten, List.mem_map]
  constructor
  · rintro ⟨l, ⟨c, hc, rfl⟩, hx⟩
    rcases List.mem_map.mp hx with ⟨t, ht, rfl⟩
    exact ⟨c, hc, t, ht, rfl⟩
  · rintro ⟨c, hc, t, ht, rfl⟩
    exact ⟨c.tags.map TagLabel.tagFQN, ⟨c, hc, rfl⟩, List.mem_map.mpr ⟨t, ht, rfl⟩⟩

lemma chartStep_tags (acc : List String × List String × List String) (c : Chart) :
    (chartStep acc c).2.2 = addAllTags acc.2.2 c.tags := by
  show (if c.tags.length > 0 then addAllTags acc.2.2 c.tags else acc.2.2) = _
  exact if_addAllTags _ _

lemma chartFoldl_tags_subset :
    ∀ (charts : List Chart) (acc : List String × List String × List String) (x : String),
      x ∈ (charts.foldl chartStep acc).2.2 →
        x ∈ acc.2.2 ∨ x ∈ chartTagFQNs charts := by
  intro charts
  induction charts with
  | nil => exact fun acc x h => Or.inl h
  | cons c rest ih =>
    intro acc x h
    rw [List.foldl_cons] at h
    rcases ih _ x h with h1 | h1
    · rw [chartStep_tags] at h1
      rcases mem_addAllTags.mp h1 with h2 | ⟨t, ht, rfl⟩
      · exact Or.inl h2
      · exact Or.inr (mem_chartTagFQNs.mpr ⟨c, List.mem_cons_self c rest, t, ht, rfl⟩)
    · rcases mem_chartTagFQNs.mp h1 with ⟨c', hc', t, ht, rfl⟩
      exact Or.inr (mem_chartTagFQNs.mpr ⟨c', List.mem_cons_of_mem _ hc', t, ht, rfl⟩)

lemma chartFold_tags_subset {charts : List Chart} {tags : List String} {x : String}
    (h : x ∈ (chartFold charts tags).2.2) :
    x ∈ tags ∨ x ∈ chartTagFQNs charts :=
  chartFoldl_tags_subset charts ([], [], tags) x h

lemma taskFoldl_tags (tasks : List Task) (acc : List String × List String × List String) :
    (tasks.foldl taskStep acc).2.2 = acc.2.2 := by
  induction tasks generalizing acc with
  | nil => rfl
  | cons task rest ih =>
    rw [List.foldl_cons, ih]
    show (if tags_in_task acc.2.2 task && task.tags.length > 0 then
        addAllTags acc.2.2 task.tags
      else acc.2.2) = acc.2.2
    simp [tags_in_task]

lemma taskFold_tags (tasks : List Task) (tags : List String) :
    (taskFold tasks tags).2.2 = tags :=
  taskFoldl_tags tasks _

lemma table_doc_eq (res : ResolvedDbService) (time : Int) (table : Table)
    (ts : List TagLabel) (d : TableESDocument) (h1 : table.tags = some ts)
    (h2 : _create_table_es_doc res time table = some d) :
    d = { table_id := table.id
          database := res.database_name
          service := res.service_name
          service_type := res.service_type
          service_category := "databaseService"
          table_name := table.name
          suggest := [⟨[table.fullyQualifiedName], 5⟩, ⟨[table.name], 10⟩]
          description := table.description
          table_type := table.tableType
          last_updated_timestamp := time
          column_names := (_parse_columns table.columns none [] [] (tierTagLoop ts).2).1
          column_descriptions := (_parse_columns table.columns none [] [] (tierTagLoop ts).2).2.1
          monthly_stats := table.usageSummary.monthlyStats.count
          monthly_percentile_rank := table.usageSummary.monthlyStats.percentileRank
          weekly_stats := table.usageSummary.weeklyStats.count
          weekly_percentile_rank := table.usageSummary.weeklyStats.percentileRank
          daily_stats := table.usageSummary.dailyStats.count
          daily_percentile_rank := table.usageSummary.dailyStats.percentileRank
          tier := (tierTagLoop ts).1
          tags := (_parse_columns table.columns none [] [] (tierTagLoop ts).2).2.2
          fqdn := table.fullyQualifiedName
          schema_description := none
          owner := ownerString table.owner
          followers := followerList table.followers } := by
  unfold _create_table_es_doc at h2
  rw [h1] at h2
  exact (Option.some.inj h2).symm

lemma topic_doc_eq (res : ResolvedService) (time : Int) (topic : Topic)
    (ts : List TagLabel) (d : TopicESDocument) (h1 : topic.tags = some ts)
    (h2 : _create_topic_es_doc res time topic = some d) :
    d = { topic_id := topic.id
          service := res.service_name
          service_type := res.service_type
          service_category := "messagingService"
          topic_name := topic.name
          suggest := [⟨[topic.fullyQualifiedName], 5⟩, ⟨[topic.name], 10⟩]
          description := topic.description
          last_updated_timestamp := time
          tier := (tierTagLoop ts).1
          tags := (tierTagLoop ts).2
          fqdn := topic.fullyQualifiedName
          owner := ownerString topic.owner
          followers := followerList topic.followers } := by
  unfold _create_topic_es_doc at h2
  rw [h1] at h2
  exact (Option.some.inj h2).symm

lemma dashboard_doc_eq (res : ResolvedService) (charts : List Chart) (time : Int)
    (dashboard : Dashboard) (ts : List TagLabel) (d : DashboardESDocument)
    (h1 : dashboard.tags = some ts)
    (h2 : _create_dashboard_es_doc res charts time dashboard = some d) :
    d = { dashboard_id := dashboard.id
          service := res.service_name
          service_type := res.service_type
          service_category := "dashboardService"
          dashboard_name := dashboard.displayName
          chart_names := (chartFold charts (tierTagLoop ts).2).1
          chart_descriptions := (chartFold charts (tierTagLoop ts).2).2.1
          suggest := [⟨[dashboard.displayName], 10⟩]
          description := dashboard.description
          last_updated_timestamp := time
          tier := (tierTagLoop ts).1
          tags := (chartFold charts (tierTagLoop ts).2).2.2
          fqdn := dashboard.fullyQualifiedName
          owner := ownerString dashboard.owner
          followers := followerList dashboard.followers
          monthly_stats := dashboard.usageSummary.monthlyStats.count
          monthly_percentile_rank := dashboard.usageSummary.monthlyStats.percentileRank
          weekly_stats := dashboard.usageSummary.weeklyStats.count
          weekly_percentile_rank := dashboard.usageSummary.weeklyStats.percentileRank
          daily_stats := dashboard.usageSummary.dailyStats.count
          daily_percentile_rank := dashboard.usageSummary.dailyStats.percentileRank } := by
  unfold _create_dashboard_es_doc at h2
  rw [h1] at h2
  exact (Option.some.inj h2).symm

lemma pipeline_doc_eq (res : ResolvedService) (time : Int) (pipeline : Pipeline)
    (ts : List TagLabel) (d : PipelineESDocument) (h1 : pipeline.tags = some ts)
    (h2 : _create_pipeline_es_doc res time pipeline = some d) :
    d = { pipeline_id := pipeline.id
          service := res.service_name
          service_type := res.service_type
          service_category := "pipelineService"
          pipeline_name := pipeline.displayName
          task_names := (taskFold pipeline.tasks (tierTagLoop ts).2).1
          task_descriptions := (taskFold pipeline.tasks (tierTagLoop ts).2).2.1
          suggest := [⟨[pipeline.displayName], 10⟩]
          description := pipeline.description
          last_updated_timestamp := time
          tier := (tierTagLoop ts).1
          tags := (taskFold pipeline.tasks (tierTagLoop ts).2).2.2
          fqdn := pipeline.fullyQualifiedName
          owner := ownerString pipeline.owner
          followers := followerList pipeline.followers } := by
  unfold _create_pipeline_es_doc at h2
  rw [h1] at h2
  exact (Option.some.inj h2).symm

/-- Builders fail (raise) exactly on a `None` tag list; in particular they
succeed on any entity whose tag list is present. -/
lemma table_doc_none {res : ResolvedDbService} {time : Int} {table : Table}
    (h : table.tags = none) : _create_table_es_doc res time table = none := by
  unfold _create_table_es_doc
  rw [h]

lemma topic_doc_none {res : ResolvedService} {time : Int} {topic : Topic}
    (h : topic.tags = none) : _create_topic_es_doc res time topic = none := by
  unfold _create_topic_es_doc
  rw [h]

lemma dashboard_doc_none {res : ResolvedService} {charts : List Chart} {time : Int}
    {dashboard : Dashboard} (h : dashboard.tags = none) :
    _create_dashboard_es_doc res charts time dashboard = none := by
  unfold _create_dashboard_es_doc
  rw [h]

lemma pipeline_doc_none {res : ResolvedService} {time : Int} {pipeline : Pipeline}
    (h : pipeline.tags = none) : _create_pipeline_es_doc res time pipeline = none := by
  unfold _create_pipeline_es_doc
  rw [h]

lemma table_defaults (res : ResolvedDbService) (time : Int) (table : Table)
    (d : TableESDocument) (h2 : _create_table_es_doc res time table = some d) :
    (table.owner = none → d.owner = "") ∧
    (table.followers = none → d.followers = []) := by
  cases htags : table.tags with
  | none => rw [table_doc_none htags] at h2; cases h2
  | some ts =>
    cases table_doc_eq res time table ts d htags h2
    exact ⟨fun h => by simp [ownerString, h], fun h => by simp [followerList, h]⟩

lemma topic_defaults (res : ResolvedService) (time : Int) (topic : Topic)
    (d : TopicESDocument) (h2 : _create_topic_es_doc res time topic = some d) :
    (topic.owner = none → d.owner = "") ∧
    (topic.followers = none → d.followers = []) := by
  cases htags : topic.tags with
  | none => rw [topic_doc_none htags] at h2; cases h2
  | some ts =>
    cases topic_doc_eq res time topic ts d htags h2
    exact ⟨fun h => by simp [ownerString, h], fun h => by simp [followerList, h]⟩

lemma dashboard_defaults (res : ResolvedService) (charts : List Chart) (time : Int)
    (dashboard : Dashboard) (d : DashboardESDocument)
    (h2 : _create_dashboard_es_doc res charts time dashboard = some d) :
    (dashboard.owner = none → d.owner = "") ∧
    (dashboard.followers = none → d.followers = []) := by
  cases htags : dashboard.tags with
  | none => rw [dashboard_doc_none htags] at h2; cases h2
  | some ts =>
    cases dashboard_doc_eq res charts time dashboard ts d htags h2
    exact ⟨fun h => by simp [ownerString, h], fun h => by simp [followerList, h]⟩

lemma pipeline_defaults (res : ResolvedService) (time : Int) (pipeline : Pipeline)
    (d : PipelineESDocument) (h2 : _create_pipeline_es_doc res time pipeline = some d) :
    (pipeline.owner = none → d.owner = "") ∧
    (pipeline.followers = none → d.followers = []) := by
  cases htags : pipeline.tags with
  | none => rw [pipeline_doc_none htags] at h2; cases h2
  | some ts =>
    cases pipeline_doc_eq res time pipeline ts d htags h2
    exact ⟨fun h => by simp [ownerString, h], fun h => by simp [followerList, h]⟩

lemma table_tierlike_excluded (res : ResolvedDbService) (time : Int) (table : Table)
    (ts : List TagLabel) (d : TableESDocument) (x : String)
    (h1 : table.tags = some ts) (h2 : _create_table_es_doc res time table = some d)
    (hx : containsTier x = true) (hcol : x ∉ columnTagFQNs table.columns) :
    x ∉ d.tags := by
  cases table_doc_eq res time table ts d h1 h2
  intro hmem
  have hmem' : x ∈ (_parse_columns table.columns none [] [] (tierTagLoop ts).2).2.2 :=
    hmem
  rcases parse_columns_tags_subset _ _ _ _ _ x hmem' with hx2 | hx2
  · rw [mem_tierTagLoop_not_tier hx2] at hx
    exact Bool.false_ne_true hx
  · exact hcol hx2

lemma topic_tierlike_excluded (res : ResolvedService) (time : Int) (topic : Topic)
    (ts : List TagLabel) (d : TopicESDocument) (x : String)
    (h1 : topic.tags = some ts) (h2 : _create_topic_es_doc res time topic = some d)
    (hx : containsTier x = true) : x ∉ d.tags := by
  cases topic_doc_eq res time topic ts d h1 h2
  intro hmem
  have hmem' : x ∈ (tierTagLoop ts).2 := hmem
  rw [mem_tierTagLoop_not_tier hmem'] at hx
  exact Bool.false_ne_true hx

lemma dashboard_tierlike_excluded (res : ResolvedService) (charts : List Chart)
    (time : Int) (dashboard : Dashboard) (ts : List TagLabel) (d : DashboardESDocument)
    (x : String) (h1 : dashboard.tags = some ts)
    (h2 : _create_dashboard_es_doc res charts time dashboard = some d)
    (hx : containsTier x = true) (hch : x ∉ chartTagFQNs charts) : x ∉ d.tags := by
  cases dashboard_doc_eq res charts time dashboard ts d h1 h2
  intro hmem
  have hmem' : x ∈ (chartFold charts (tierTagLoop ts).2).2.2 := hmem
  rcases chartFold_tags_subset hmem' with hx2 | hx2
  · rw [mem_tierTagLoop_not_tier hx2] at hx
    exact Bool.false_ne_true hx
  · exact hch hx2

lemma pipeline_tierlike_excluded (res : ResolvedService) (time : Int)
    (pipeline : Pipeline) (ts : List TagLabel) (d : PipelineESDocument) (x : String)
    (h1 : pipeline.tags = some ts) (h2 : _create_pipeline_es_doc res time pipeline = some d)
    (hx : containsTier x = true) : x ∉ d.tags := by
  cases pipeline_doc_eq res time pipeline ts d h1 h2
  intro hmem
  have hmem' : x ∈ (taskFold pipeline.tasks (tierTagLoop ts).2).2.2 := hmem
  rw [taskFold_tags] at hmem'
  rw [mem_tierTagLoop_not_tier hmem'] at hx
  exact Bool.false_ne_true hx

lemma check_or_create_indexName {st : IndexState} {n : String} {m : ESMapping}
    {c : ESCall} (h : c ∈ _check_or_create_index st n m) : c.indexName = n := by
  unfold _check_or_create_index at h
  split at h
  · split at h
    · rcases List.mem_singleton.mp h with rfl
      rfl
    · cases h
  · rcases List.mem_singleton.mp h with rfl
    rfl

lemma mem_if_bootstrap {b : Bool} {L : List ESCall} {c : ESCall}
    (h : c ∈ (if b then L else [])) : c ∈ L := by
  split at h
  · exact h
  · cases h

end Lemmas

section Examples

/-- Concrete resolved database/service used by counterexamples and witnesses. -/
def exDbRes : ResolvedDbService := ⟨"sales", "mysql", "MySQL"⟩

/-- Concrete resolved messaging/dashboard/pipeline service. -/
def exSvc : ResolvedService := ⟨"kafka", "Kafka"⟩

/-- Zeroed usage statistics. -/
def exStats : UsageSummary := ⟨⟨0, 0⟩, ⟨0, 0⟩, ⟨0, 0⟩⟩

/-- A topic carrying two tier-like tags, `Tier.Tier1` first. -/
def twoTierTopic : Topic :=
  { id := "topic-1"
    name := "orders_events"
    fullyQualifiedName := "kafka.orders_events"
    description := none
    service := ⟨"svc-1", "kafka"⟩
    tags := some [⟨"Tier.Tier1"⟩, ⟨"Tier.Tier5"⟩]
    owner := none
    followers := none }

/-- The spec's end-to-end example table: name `orders`, two tags, no owner. -/
def ordersTable : Table :=
  { id := "table-1"
    name := "orders"
    fullyQualifiedName := "mysql.sales.orders"
    description := none
    database := ⟨"db-1", "sales"⟩
    columns := []
    tags := some [⟨"Tier.Tier1"⟩, ⟨"PII.Sensitive"⟩]
    usageSummary := exStats
    owner := none
    followers := none
    tableType := none }

/-- A concrete mapping template. -/
def exMapping : ESMapping := ⟨"settings-payload", "properties-payload"⟩

end Examples

/-- **C1** — counterexample.  The tier loop overwrites `tier` on every
tier-like tag, so a topic tagged `[Tier.Tier1, Tier.Tier5]` ends with
`tier = Tier.Tier5`, the LAST tier-like tag, while the first one is
`Tier.Tier1`. -/
theorem c1_counterexample :
    (_create_topic_es_doc exSvc 0 twoTierTopic).map TopicESDocument.tier
        = some (some "Tier.Tier5")
    ∧ firstTierTag [⟨"Tier.Tier1"⟩, ⟨"Tier.Tier5"⟩] = some "Tier.Tier1"
    ∧ ("Tier.Tier5" : String) ≠ "Tier.Tier1" := by
  refine ⟨rfl, by decide, by decide⟩

/-- **C1** (amended): for every entity (Table, Topic, Dashboard, Pipeline),
the document's `tier` field is the LAST tag in the tag list's iteration
order whose fully-qualified name contains the substring `"Tier"` (`none`
when there is no such tag) — not the first. -/
theorem c1_tier_is_last_tier_tag :
    (∀ (res : ResolvedDbService) (time : Int) (table : Table) (ts : List TagLabel)
        (d : TableESDocument), table.tags = some ts →
        _create_table_es_doc res time table = some d → d.tier = lastTierTag ts)
    ∧ (∀ (res : ResolvedService) (time : Int) (topic : Topic) (ts : List TagLabel)
        (d : TopicESDocument), topic.tags = some ts →
        _create_topic_es_doc res time topic = some d → d.tier = lastTierTag ts)
    ∧ (∀ (res : ResolvedService) (charts : List Chart) (time : Int)
        (dashboard : Dashboard) (ts : List TagLabel) (d : DashboardESDocument),
        dashboard.tags = some ts →
        _create_dashboard_es_doc res charts time dashboard = some d →
        d.tier = lastTierTag ts)
    ∧ (∀ (res : ResolvedService) (time : Int) (pipeline : Pipeline) (ts : List TagLabel)
        (d : PipelineESDocument), pipeline.tags = some ts →
        _create_pipeline_es_doc res time pipeline = some d → d.tier = lastTierTag ts) := by
  refine ⟨?_, ?_, ?_, ?_⟩
  · intro res time table ts d h1 h2
    cases table_doc_eq res time table ts d h1 h2
    exact tierTagLoop_fst ts
  · intro res time topic ts d h1 h2
    cases topic_doc_eq res time topic ts d h1 h2
    exact tierTagLoop_fst ts
  · intro res charts time dashboard ts d h1 h2
    cases dashboard_doc_eq res charts time dashboard ts d h1 h2
    exact tierTagLoop_fst ts
  · intro res time pipeline ts d h1 h2
    cases pipeline_doc_eq res time pipeline ts d h1 h2
    exact tierTagLoop_fst ts

/-- **C1** — witness: the amended theorem applied to the concrete two-tier
topic. -/
theorem c1_witness :
    (_create_topic_es_doc exSvc 0 twoTierTopic).map TopicESDocument.tier
      = some (lastTierTag [⟨"Tier.Tier1"⟩, ⟨"Tier.Tier5"⟩]) := by
  obtain ⟨d, hd⟩ : ∃ d, _create_topic_es_doc exSvc 0 twoTierTopic = some d := ⟨_, rfl⟩
  rw [hd]
  exact congrArg some (c1_tier_is_last_tier_tag.2.1 exSvc 0 twoTierTopic _ d rfl hd)

/-- **C7**: `_check_or_create_index` issues exactly one create-index call
with the full supplied mapping when the index does not exist; exactly one
put-mapping call carrying only the `properties` sub-object when the index
exists with empty mappings; and no call when the index exists with
mappings. -/
theorem c7_check_or_create_index (st : IndexState) (name : String) (m : ESMapping) :
    (st.indexExists = false →
        _check_or_create_index st name m = [ESCall.createIndex name m])
    ∧ (st.indexExists = true → st.mappingsEmpty = true →
        _check_or_create_index st name m = [ESCall.putMapping name ⟨m.properties⟩])
    ∧ (st.indexExists = true → st.mappingsEmpty = false →
        _check_or_create_index st name m = []) := by
  refine ⟨fun h => ?_, fun h h' => ?_, fun h h' => ?_⟩
  · simp [_check_or_create_index, h]
  · simp [_check_or_create_index, h, h']
  · simp [_check_or_create_index, h, h']

/-- **C7** — witness: the theorem applied to the three concrete index
states. -/
theorem c7_witness :
    _check_or_create_index ⟨false, false⟩ "table_search_index" exMapping
        = [ESCall.createIndex "table_search_index" exMapping]
    ∧ _check_or_create_index ⟨true, true⟩ "table_search_index" exMapping
        = [ESCall.putMapping "table_search_index" ⟨exMapping.properties⟩]
    ∧ _check_or_create_index ⟨true, false⟩ "table_search_index" exMapping = [] :=
  ⟨(c7_check_or_create_index ⟨false, false⟩ "table_search_index" exMapping).1 rfl,
   (c7_check_or_create_index ⟨true, true⟩ "table_search_index" exMapping).2.1 rfl rfl,
   (c7_check_or_create_index ⟨true, false⟩ "table_search_index" exMapping).2.2 rfl rfl⟩

/-- **C9**: for Tables and Topics the `suggest` field is the two-entry list
with the fully-qualified name at weight 5 and the short name at weight 10,
in that order; for Dashboards and Pipelines it is the one-entry list with
the display name at weight 10. -/
theorem c9_suggest_weights :
    (∀ (res : ResolvedDbService) (time : Int) (table : Table) (d : TableESDocument),
        _create_table_es_doc res time table = some d →
        d.suggest = [⟨[table.fullyQualifiedName], 5⟩, ⟨[table.name], 10⟩])
    ∧ (∀ (res : ResolvedService) (time : Int) (topic : Topic) (d : TopicESDocument),
        _create_topic_es_doc res time topic = some d →
        d.suggest = [⟨[topic.fullyQualifiedName], 5⟩, ⟨[topic.name], 10⟩])
    ∧ (∀ (res : ResolvedService) (charts : List Chart) (time : Int)
        (dashboard : Dashboard) (d : DashboardESDocument),
        _create_dashboard_es_doc res charts time dashboard = some d →
        d.suggest = [⟨[dashboard.displayName], 10⟩])
    ∧ (∀ (res : ResolvedService) (time : Int) (pipeline : Pipeline)
        (d : PipelineESDocument),
        _create_pipeline_es_doc res time pipeline = some d →
        d.suggest = [⟨[pipeline.displayName], 10⟩]) := by
  refine ⟨?_, ?_, ?_, ?_⟩
  · intro res time table d h2
    cases htags : table.tags with
    | none => rw [table_doc_none htags] at h2; cases h2
    | some ts => cases table_doc_eq res time table ts d htags h2; rfl
  · intro res time topic d h2
    cases htags : topic.tags with
    | none => rw [topic_doc_none htags] at h2; cases h2
    | some ts => cases topic_doc_eq res time topic ts d htags h2; rfl
  · intro res charts time dashboard d h2
    cases htags : dashboard.tags with
    | none => rw [dashboard_doc_none htags] at h2; cases h2
    | some ts => cases dashboard_doc_eq res charts time dashboard ts d htags h2; rfl
  · intro res time pipeline d h2
    cases htags : pipeline.tags with
    | none => rw [pipeline_doc_none htags] at h2; cases h2
    | some ts => cases pipeline_doc_eq res time pipeline ts d htags h2; rfl

/-- **C9** — witness: the spec's example table (`orders`,
`mysql.sales.orders`) yields the two weighted entries in order. -/
theorem c9_witness :
    (_create_table_es_doc exDbRes 0 ordersTable).map TableESDocument.suggest
      = some [⟨["mysql.sales.orders"], 5⟩, ⟨["orders"], 10⟩] := by
  obtain ⟨d, hd⟩ : ∃ d, _create_table_es_doc exDbRes 0 ordersTable = some d := ⟨_, rfl⟩
  rw [hd]
  exact congrArg some (c9_suggest_weights.1 exDbRes 0 ordersTable d hd)

/-- **C8**: when the builder succeeds, a missing owner becomes the empty
string and missing followers become the empty list, for all four entity
kinds. -/
theorem c8_owner_followers :
    (∀ (res : ResolvedDbService) (time : Int) (table : Table) (d : TableESDocument),
        _create_table_es_doc res time table = some d →
        (table.owner = none → d.owner = "") ∧
        (table.followers = none → d.followers = []))
    ∧ (∀ (res : ResolvedService) (time : Int) (topic : Topic) (d : TopicESDocument),
        _create_topic_es_doc res time topic = some d →
        (topic.owner = none → d.owner = "") ∧
        (topic.followers = none → d.followers = []))
    ∧ (∀ (res : ResolvedService) (charts : List Chart) (time : Int)
        (dashboard : Dashboard) (d : DashboardESDocument),
        _create_dashboard_es_doc res charts time dashboard = some d →
        (dashboard.owner = none → d.owner = "") ∧
        (dashboard.followers = none → d.followers = []))
    ∧ (∀ (res : ResolvedService) (time : Int) (pipeline : Pipeline)
        (d : PipelineESDocument),
        _create_pipeline_es_doc res time pipeline = some d →
        (pipeline.owner = none → d.owner = "") ∧
        (pipeline.followers = none → d.followers = [])) := by
  exact ⟨table_defaults, topic_defaults, dashboard_defaults, pipeline_defaults⟩

/-- **C8** — witness: the spec's example table has no owner and no
followers; its document carries `owner = ""` and `followers = []`. -/
theorem c8_witness :
    (_create_table_es_doc exDbRes 0 ordersTable).map
        (fun d => (d.owner, d.followers))
      = some ("", []) := by
  obtain ⟨d, hd⟩ : ∃ d, _create_table_es_doc exDbRes 0 ordersTable = some d := ⟨_, rfl⟩
  rw [hd]
  have h := c8_owner_followers.1 exDbRes 0 ordersTable d hd
  have h1 := h.1 rfl
  have h2 := h.2 rfl
  simp [h1, h2]

/-- Three-level nested column tree: root `a`, child `b`, grandchild `c`. -/
def abcColumns : List Column :=
  [Column.mk "a" none [] (some [Column.mk "b" none [] (some [Column.mk "c" none [] none])])]

/-- **C2** — the code at the claimed input: on the three-level tree
`a / b / c`, `_parse_columns` yields `["a", "a.b", "b.c"]`, not the claimed
`["a", "a.b", "a.b.c"]` — the recursion passes the bare column name instead
of the accumulated dotted path, so the grandchild loses the root prefix. -/
theorem c2_grandchild_loses_root_prefix :
    (_parse_columns abcColumns none [] [] []).1 = ["a", "a.b", "b.c"]
    ∧ ["a", "a.b", "b.c"] ≠ ["a", "a.b", "a.b.c"] := by
  constructor
  · simp [_parse_columns, abcColumns]
  · decide

/-- A pipeline whose single task carries a tag absent from the pipeline's
own (empty) tag list. -/
def taggedTaskPipeline : Pipeline :=
  { id := "pipe-1"
    name := "daily_load"
    displayName := "Daily Load"
    fullyQualifiedName := "airflow.daily_load"
    description := none
    service := ⟨"svc-2", "airflow"⟩
    tasks := [⟨"extract", none, [⟨"PII.Sensitive"⟩]⟩]
    tags := some []
    owner := none
    followers := none }

/-- **C5** — the code at the claimed input: the task list is flattened
(task names collected), but the task's tag `PII.Sensitive` does NOT appear
in the produced document's tags — the merge is guarded by `tags in task`,
which is identically false, so task tags are never merged. -/
theorem c5_task_tags_not_merged :
    (_create_pipeline_es_doc exSvc 0 taggedTaskPipeline).map
        (fun d => (d.task_names, d.tags, d.tags.contains "PII.Sensitive"))
      = some (["extract"], [], false) := rfl

/-- A topic whose `tags` field is unset (`None`). -/
def noTagsTopic : Topic :=
  { id := "topic-2"
    name := "clicks"
    fullyQualifiedName := "kafka.clicks"
    description := none
    service := ⟨"svc-1", "kafka"⟩
    tags := none
    owner := none
    followers := none }

/-- **C4** — counterexample: a builder applied to an entity whose tags
field is unset DOES fail (iterating `None` raises; modelled as `none`),
contradicting the claim that it succeeds with an empty default. -/
theorem c4_counterexample :
    noTagsTopic.tags = none
    ∧ _create_topic_es_doc exSvc 0 noTagsTopic = none := ⟨rfl, rfl⟩

/-- **C4** (amended): a missing owner maps to the empty string and missing
followers to the empty list (when the builder succeeds), but an unset
(`None`) tags field makes every builder fail rather than default. -/
theorem c4_missing_optional_fields :
    ((∀ (res : ResolvedDbService) (time : Int) (table : Table),
        table.tags = none → _create_table_es_doc res time table = none)
      ∧ (∀ (res : ResolvedService) (time : Int) (topic : Topic),
          topic.tags = none → _create_topic_es_doc res time topic = none)
      ∧ (∀ (res : ResolvedService) (charts : List Chart) (time : Int)
          (dashboard : Dashboard), dashboard.tags = none →
          _create_dashboard_es_doc res charts time dashboard = none)
      ∧ (∀ (res : ResolvedService) (time : Int) (pipeline : Pipeline),
          pipeline.tags = none → _create_pipeline_es_doc res time pipeline = none))
    ∧ ((∀ (res : ResolvedDbService) (time : Int) (table : Table) (d : TableESDocument),
          _create_table_es_doc res time table = some d →
          (table.owner = none → d.owner = "") ∧
          (table.followers = none → d.followers = []))
      ∧ (∀ (res : ResolvedService) (time : Int) (topic : Topic) (d : TopicESDocument),
          _create_topic_es_doc res time topic = some d →
          (topic.owner = none → d.owner = "") ∧
          (topic.followers = none → d.followers = []))
      ∧ (∀ (res : ResolvedService) (charts : List Chart) (time : Int)
          (dashboard : Dashboard) (d : DashboardESDocument),
          _create_dashboard_es_doc res charts time dashboard = some d →
          (dashboard.owner = none → d.owner = "") ∧
          (dashboard.followers = none → d.followers = []))
      ∧ (∀ (res : ResolvedService) (time : Int) (pipeline : Pipeline)
          (d : PipelineESDocument),
          _create_pipeline_es_doc res time pipeline = some d →
          (pipeline.owner = none → d.owner = "") ∧
          (pipeline.followers = none → d.followers = []))) := by
  refine ⟨⟨?_, ?_, ?_, ?_⟩,
    table_defaults, topic_defaults, dashboard_defaults, pipeline_defaults⟩
  · intro res time table h
    exact table_doc_none h
  · intro res time topic h
    exact topic_doc_none h
  · intro res charts time dashboard h
    exact dashboard_doc_none h
  · intro res time pipeline h
    exact pipeline_doc_none h

/-- **C4** — witness: the amended theorem applied to the unset-tags topic
(the builder fails) and to the two-tier topic with no owner/followers (the
defaults hold). -/
theorem c4_witness :
    _create_topic_es_doc exSvc 0 noTagsTopic = none
    ∧ (_create_topic_es_doc exSvc 0 twoTierTopic).map
        (fun d => (d.owner, d.followers)) = some ("", []) := by
  constructor
  · exact c4_missing_optional_fields.1.2.1 exSvc 0 noTagsTopic rfl
  · obtain ⟨d, hd⟩ : ∃ d, _create_topic_es_doc exSvc 0 twoTierTopic = some d := ⟨_, rfl⟩
    rw [hd]
    have h := c4_missing_optional_fields.2.2.1 exSvc 0 twoTierTopic d hd
    simp [h.1 rfl, h.2 rfl]

/-- A configuration with table indexing disabled; everything else default. -/
def noTablesCfg : ElasticSearchConfig := { index_tables := false }

/-- Concrete metadata resolutions for dispatch examples. -/
def exRes : MetadataResolution :=
  { dbService := exDbRes
    msgService := exSvc
    dashService := exSvc
    pipeService := exSvc
    charts := []
    timestamp := 0 }

/-- Concrete mapping templates and cluster state for bootstrap examples. -/
def exMaps : MappingTemplates := ⟨exMapping, exMapping, exMapping, exMapping⟩

def exCluster : ClusterState :=
  ⟨⟨false, false⟩, ⟨false, false⟩, ⟨false, false⟩, ⟨false, false⟩⟩

/-- **C3** — counterexample: with `index_tables = false`, `write_record`
still issues an index call for a Table record (the dispatch never consults
the enable flags). -/
theorem c3_counterexample :
    noTablesCfg.index_tables = false
    ∧ write_record noTablesCfg exRes (Record.table ordersTable)
        = some [ESCall.indexDoc "table_search_index" "table-1"] := ⟨rfl, rfl⟩

/-- **C3** (amended): a disabled kind's index is never touched during the
construction-time bootstrap (given pairwise-distinct index names), but
`write_record` is independent of the enable flags and indexes a record of a
disabled kind all the same. -/
theorem c3_flags_gate_bootstrap_only :
    (∀ (cfg : ElasticSearchConfig) (cluster : ClusterState) (maps : MappingTemplates),
        cfg.index_tables = false →
        cfg.table_index_name ≠ cfg.topic_index_name →
        cfg.table_index_name ≠ cfg.dashboard_index_name →
        cfg.table_index_name ≠ cfg.pipeline_index_name →
        ∀ c ∈ sinkInit cfg cluster maps, ESCall.indexName c ≠ cfg.table_index_name)
    ∧ (∀ (cfg : ElasticSearchConfig) (cluster : ClusterState) (maps : MappingTemplates),
        cfg.index_topics = false →
        cfg.topic_index_name ≠ cfg.table_index_name →
        cfg.topic_index_name ≠ cfg.dashboard_index_name →
        cfg.topic_index_name ≠ cfg.pipeline_index_name →
        ∀ c ∈ sinkInit cfg cluster maps, ESCall.indexName c ≠ cfg.topic_index_name)
    ∧ (∀ (cfg : ElasticSearchConfig) (cluster : ClusterState) (maps : MappingTemplates),
        cfg.index_dashboards = false →
        cfg.dashboard_index_name ≠ cfg.table_index_name →
        cfg.dashboard_index_name ≠ cfg.topic_index_name →
        cfg.dashboard_index_name ≠ cfg.pipeline_index_name →
        ∀ c ∈ sinkInit cfg cluster maps, ESCall.indexName c ≠ cfg.dashboard_index_name)
    ∧ (∀ (cfg : ElasticSearchConfig) (cluster : ClusterState) (maps : MappingTemplates),
        cfg.index_pipelines = false →
        cfg.pipeline_index_name ≠ cfg.table_index_name →
        cfg.pipeline_index_name ≠ cfg.topic_index_name →
        cfg.pipeline_index_name ≠ cfg.dashboard_index_name →
        ∀ c ∈ sinkInit cfg cluster maps, ESCall.indexName c ≠ cfg.pipeline_index_name)
    ∧ (∀ (cfg : ElasticSearchConfig) (res : MetadataResolution) (r : Record)
        (b1 b2 b3 b4 : Bool),
        write_record cfg res r =
          write_record
            { cfg with
              index_tables := b1
              index_topics := b2
              index_dashboards := b3
              index_pipelines := b4 }
            res r) := by
  refine ⟨?_, ?_, ?_, ?_, ?_⟩
  · intro cfg cluster maps hflag hn1 hn2 hn3 c hc
    unfold sinkInit at hc
    rw [hflag] at hc
    simp only [List.mem_append] at hc
    rcases hc with ((hc | hc) | hc) | hc
    · simp at hc
    · rw [check_or_create_indexName (mem_if_bootstrap hc)]
      exact Ne.symm hn1
    · rw [check_or_create_indexName (mem_if_bootstrap hc)]
      exact Ne.symm hn2
    · rw [check_or_create_indexName (mem_if_bootstrap hc)]
      exact Ne.symm hn3
  · intro cfg cluster maps hflag hn1 hn2 hn3 c hc
    unfold sinkInit at hc
    rw [hflag] at hc
    simp only [List.mem_append] at hc
    rcases hc with ((hc | hc) | hc) | hc
    · rw [check_or_create_indexName (mem_if_bootstrap hc)]
      exact Ne.symm hn1
    · simp at hc
    · rw [check_or_create_indexName (mem_if_bootstrap hc)]
      exact Ne.symm hn2
    · rw [check_or_create_indexName (mem_if_bootstrap hc)]
      exact Ne.symm hn3
  · intro cfg cluster maps hflag hn1 hn2 hn3 c hc
    unfold sinkInit at hc
    rw [hflag] at hc
    simp only [List.mem_append] at hc
    rcases hc with ((hc | hc) | hc) | hc
    · rw [check_or_create_indexName (mem_if_bootstrap hc)]
      exact Ne.symm hn1
    · rw [check_or_create_indexName (mem_if_bootstrap hc)]
      exact Ne.symm hn2
    · simp at hc
    · rw [check_or_create_indexName (mem_if_bootstrap hc)]
      exact Ne.symm hn3
  · intro cfg cluster maps hflag hn1 hn2 hn3 c hc
    unfold sinkInit at hc
    rw [hflag] at hc
    simp only [List.mem_append] at hc
    rcases hc with ((hc | hc) | hc) | hc
    · rw [check_or_create_indexName (mem_if_bootstrap hc)]
      exact Ne.symm hn1
    · rw [check_or_create_indexName (mem_if_bootstrap hc)]
      exact Ne.symm hn2
    · rw [check_or_create_indexName (mem_if_bootstrap hc)]
      exact Ne.symm hn3
    · simp at hc
  · intro cfg res r b1 b2 b3 b4
    cases r <;> rfl

/-- **C3** — witness: applying the amended theorem at a concrete disabled
configuration shows the table index is never created at construction. -/
theorem c3_witness :
    ESCall.createIndex "table_search_index" exMapping
      ∉ sinkInit noTablesCfg exCluster exMaps := by
  intro hmem
  have h := c3_flags_gate_bootstrap_only.1 noTablesCfg exCluster exMaps rfl
      (by decide) (by decide) (by decide) _ hmem
  exact h rfl

/-- A table with exactly one tier-like tag whose FQN also appears on one of
its columns. -/
def tierColumnTable : Table :=
  { id := "table-2"
    name := "users"
    fullyQualifiedName := "mysql.sales.users"
    description := none
    database := ⟨"db-1", "sales"⟩
    columns := [Column.mk "ssn" none [⟨"Tier.Tier1"⟩] none]
    tags := some [⟨"Tier.Tier1"⟩]
    usageSummary := exStats
    owner := none
    followers := none
    tableType := none }

/-- **C6** — counterexample: the column walk adds column tags to the tag
set unfiltered, so when the chosen tier tag's FQN also sits on a column the
produced document carries it in `tags` as well: claim's "tags excludes it
(including when the same tag FQN also appears on one of the table's
columns)" fails. -/
theorem c6_counterexample :
    tierColumnTable.tags = some [⟨"Tier.Tier1"⟩]
    ∧ (tierColumnTable.tags.getD []).filter (fun t => containsTier t.tagFQN)
        = [⟨"Tier.Tier1"⟩]
    ∧ (_create_table_es_doc exDbRes 0 tierColumnTable).map
        (fun d => (d.tier, d.tags.contains "Tier.Tier1"))
      = some (some "Tier.Tier1", true) := by
  refine ⟨rfl, by decide, ?_⟩
  simp [_create_table_es_doc, tierColumnTable, _parse_columns, tierTagLoop,
    tierTagStep, addAllTags, addTag, containsTier, hasSubstr]

/-- **C6** (amended): the chosen tier tag is excluded from the document's
tag set as far as the entity-level tag loop is concerned; it can re-enter
only through column tags (tables) or chart tags (dashboards).  For topics
and pipelines the exclusion is unconditional; for tables and dashboards it
holds whenever the tier FQN does not occur among the column/chart tags — in
particular for a table with exactly one tier-like tag not present on any
column, `tier` equals that tag and `tags` excludes it. -/
theorem c6_tier_excluded_unless_readded :
    (∀ (res : ResolvedDbService) (time : Int) (table : Table) (ts : List TagLabel)
        (d : TableESDocument) (x : String), table.tags = some ts →
        _create_table_es_doc res time table = some d → d.tier = some x →
        x ∉ columnTagFQNs table.columns → x ∉ d.tags)
    ∧ (∀ (res : ResolvedService) (time : Int) (topic : Topic) (ts : List TagLabel)
        (d : TopicESDocument) (x : String), topic.tags = some ts →
        _create_topic_es_doc res time topic = some d → d.tier = some x →
        x ∉ d.tags)
    ∧ (∀ (res : ResolvedService) (charts : List Chart) (time : Int)
        (dashboard : Dashboard) (ts : List TagLabel) (d : DashboardESDocument)
        (x : String), dashboard.tags = some ts →
        _create_dashboard_es_doc res charts time dashboard = some d →
        d.tier = some x → x ∉ chartTagFQNs charts → x ∉ d.tags)
    ∧ (∀ (res : ResolvedService) (time : Int) (pipeline : Pipeline) (ts : List TagLabel)
        (d : PipelineESDocument) (x : String), pipeline.tags = some ts →
        _create_pipeline_es_doc res time pipeline = some d → d.tier = some x →
        x ∉ d.tags)
    ∧ (∀ (res : ResolvedDbService) (time : Int) (table : Table) (ts : List TagLabel)
        (tg : TagLabel) (d : TableESDocument), table.tags = some ts →
        ts.filter (fun t => containsTier t.tagFQN) = [tg] →
        _create_table_es_doc res time table = some d →
        tg.tagFQN ∉ columnTagFQNs table.columns →
        d.tier = some tg.tagFQN ∧ tg.tagFQN ∉ d.tags) := by
  have tierOf :
      ∀ (ts : List TagLabel) (x : String),
        (tierTagLoop ts).1 = some x → containsTier x = true := by
    intro ts x h
    rw [tierTagLoop_fst] at h
    exact lastTierTag_isTier h
  refine ⟨?_, ?_, ?_, ?_, ?_⟩
  · intro res time table ts d x h1 h2 htier hcol
    have htier' : (tierTagLoop ts).1 = some x := by
      cases table_doc_eq res time table ts d h1 h2
      exact htier
    exact table_tierlike_excluded res time table ts d x h1 h2 (tierOf ts x htier') hcol
  · intro res time topic ts d x h1 h2 htier
    have htier' : (tierTagLoop ts).1 = some x := by
      cases topic_doc_eq res time topic ts d h1 h2
      exact htier
    exact topic_tierlike_excluded res time topic ts d x h1 h2 (tierOf ts x htier')
  · intro res charts time dashboard ts d x h1 h2 htier hch
    have htier' : (tierTagLoop ts).1 = some x := by
      cases dashboard_doc_eq res charts time dashboard ts d h1 h2
      exact htier
    exact dashboard_tierlike_excluded res charts time dashboard ts d x h1 h2
      (tierOf ts x htier') hch
  · intro res time pipeline ts d x h1 h2 htier
    have htier' : (tierTagLoop ts).1 = some x := by
      cases pipeline_doc_eq res time pipeline ts d h1 h2
      exact htier
    exact pipeline_tierlike_excluded res time pipeline ts d x h1 h2 (tierOf ts x htier')
  · intro res time table ts tg d h1 hflt h2 hcol
    have htier : d.tier = some tg.tagFQN := by
      cases table_doc_eq res time table ts d h1 h2
      show (tierTagLoop ts).1 = some tg.tagFQN
      rw [tierTagLoop_fst]
      exact lastTierTag_of_filter_singleton hflt
    refine ⟨htier, ?_⟩
    have hx : containsTier tg.tagFQN = true := by
      have := lastTierTag_of_filter_singleton hflt
      exact lastTierTag_isTier this
    exact table_tierlike_excluded res time table ts d tg.tagFQN h1 h2 hx hcol

/-- **C6** — witness: the spec's example table (one tier-like tag, no
column tags) gets `tier = Tier.Tier1` and a tag set without it. -/
theorem c6_witness :
    (_create_table_es_doc exDbRes 0 ordersTable).map
        (fun d => (d.tier, decide ("Tier.Tier1" ∈ d.tags)))
      = some (some "Tier.Tier1", false) := by
  obtain ⟨d, hd⟩ : ∃ d, _create_table_es_doc exDbRes 0 ordersTable = some d := ⟨_, rfl⟩
  rw [hd]
  have h := c6_tier_excluded_unless_readded.2.2.2.2 exDbRes 0 ordersTable
      [⟨"Tier.Tier1"⟩, ⟨"PII.Sensitive"⟩] ⟨"Tier.Tier1"⟩ d rfl (by decide) hd
      (by simp [columnTagFQNs, ordersTable])
  simp [h.1, decide_eq_false h.2]

/-- A table with two tier-like tags, the first of which also sits on a
column. -/
def multiTierTable : Table :=
  { id := "table-3"
    name := "events"
    fullyQualifiedName := "mysql.sales.events"
    description := none
    database := ⟨"db-1", "sales"⟩
    columns := [Column.mk "c1" none [⟨"Tier.Tier1"⟩] none]
    tags := some [⟨"Tier.Tier1"⟩, ⟨"Tier.Tier5"⟩]
    usageSummary := exStats
    owner := none
    followers := none
    tableType := none }

/-- **C10** — counterexample: `Tier.Tier1` sits in the table's own tag
list, is tier-like, and is NOT the chosen tier (`Tier.Tier5` is), yet it
appears in the document's `tags` because a column carries the same FQN and
column tags are added unfiltered. -/
theorem c10_counterexample :
    multiTierTable.tags = some [⟨"Tier.Tier1"⟩, ⟨"Tier.Tier5"⟩]
    ∧ TagLabel.mk "Tier.Tier1" ∈ [TagLabel.mk "Tier.Tier1", TagLabel.mk "Tier.Tier5"]
    ∧ containsTier "Tier.Tier1" = true
    ∧ (_create_table_es_doc exDbRes 0 multiTierTable).map
        (fun d => (d.tier, d.tags.contains "Tier.Tier1"))
      = some (some "Tier.Tier5", true) := by
  refine ⟨rfl, by decide, by decide, ?_⟩
  simp [_create_table_es_doc, multiTierTable, _parse_columns, tierTagLoop,
    tierTagStep, addAllTags, addTag, containsTier, hasSubstr]

/-- **C10** (amended): the entity-level tag loop never lets a tier-like tag
of the entity's own tag list into the tag set (all of them funnel into the
overwritten `tier` slot, so the non-chosen ones are dropped by that loop);
for topics and pipelines such a tag therefore never appears in the
document's `tags`, and for tables and dashboards the same holds provided
the FQN does not also occur among the column/chart tags, which are merged
unfiltered. -/
theorem c10_own_tier_tags_dropped :
    (∀ (res : ResolvedDbService) (time : Int) (table : Table) (ts : List TagLabel)
        (d : TableESDocument) (t : TagLabel), table.tags = some ts →
        _create_table_es_doc res time table = some d →
        t ∈ ts → containsTier t.tagFQN = true →
        t.tagFQN ∉ columnTagFQNs table.columns → t.tagFQN ∉ d.tags)
    ∧ (∀ (res : ResolvedService) (time : Int) (topic : Topic) (ts : List TagLabel)
        (d : TopicESDocument) (t : TagLabel), topic.tags = some ts →
        _create_topic_es_doc res time topic = some d →
        t ∈ ts → containsTier t.tagFQN = true → t.tagFQN ∉ d.tags)
    ∧ (∀ (res : ResolvedService) (charts : List Chart) (time : Int)
        (dashboard : Dashboard) (ts : List TagLabel) (d : DashboardESDocument)
        (t : TagLabel), dashboard.tags = some ts →
        _create_dashboard_es_doc res charts time dashboard = some d →
        t ∈ ts → containsTier t.tagFQN = true →
        t.tagFQN ∉ chartTagFQNs charts → t.tagFQN ∉ d.tags)
    ∧ (∀ (res : ResolvedService) (time : Int) (pipeline : Pipeline) (ts : List TagLabel)
        (d : PipelineESDocument) (t : TagLabel), pipeline.tags = some ts →
        _create_pipeline_es_doc res time pipeline = some d →
        t ∈ ts → containsTier t.tagFQN = true → t.tagFQN ∉ d.tags) := by
  refine ⟨?_, ?_, ?_, ?_⟩
  · intro res time table ts d t h1 h2 _hmem hx hcol
    exact table_tierlike_excluded res time table ts d t.tagFQN h1 h2 hx hcol
  · intro res time topic ts d t h1 h2 _hmem hx
    exact topic_tierlike_excluded res time topic ts d t.tagFQN h1 h2 hx
  · intro res charts time dashboard ts d t h1 h2 _hmem hx hch
    exact dashboard_tierlike_excluded res charts time dashboard ts d t.tagFQN h1 h2 hx hch
  · intro res time pipeline ts d t h1 h2 _hmem hx
    exact pipeline_tierlike_excluded res time pipeline ts d t.tagFQN h1 h2 hx

/-- **C10** — witness: in the two-tier topic, the non-chosen tier tag
`Tier.Tier1` appears in neither `tier` nor `tags`. -/
theorem c10_witness :
    (_create_topic_es_doc exSvc 0 twoTierTopic).map
        (fun d => decide ("Tier.Tier1" ∈ d.tags))
      = some false := by
  obtain ⟨d, hd⟩ : ∃ d, _create_topic_es_doc exSvc 0 twoTierTopic = some d := ⟨_, rfl⟩
  rw [hd]
  have h := c10_own_tier_tags_dropped.2.1 exSvc 0 twoTierTopic
      [⟨"Tier.Tier1"⟩, ⟨"Tier.Tier5"⟩] d ⟨"Tier.Tier1"⟩ rfl hd (by decide) (by decide)
  simp [decide_eq_false h]

end OMES
